import Mathlib

/-!
Shallow embedding of `rflect.dom.ViewportSizeMonitor` (src/unnamed/part_000)
and of the string helpers `rflect.string` (src/src/string/string.js).

Conventions of the embedding:
* `goog.math.Size` becomes the structure `Size` with natural-number fields.
* A window handle is identified by its uid (`goog.getUid`), a natural number.
* The host environment (user-agent flags, `goog.dom.getViewportSize`,
  `window.self != window.top`) is the structure `Env`; `Env.measure u` is the
  viewport size the host reports for the window with uid `u`.
* Calls into the host (`goog.events.listen` / `unlistenByKey`,
  `setInterval` / `clearInterval`) are recorded as an `Effect` trace, and
  `dispatchEvent(goog.events.EventType.RESIZE)` as an `Event` trace.
* JavaScript `null` / `undefined` fields become `Option`; a method that would
  dereference `null` (e.g. measuring through a nulled window) returns `none`
  at the top level.
-/

namespace Rflect

/-- `goog.math.Size`: a width/height pair of pixel dimensions. -/
structure Size where
  width : Nat
  height : Nat
deriving DecidableEq, Repr

/-- `goog.math.Size.prototype.clone`: returns a new `Size` with the same
width and height. -/
def Size.clone (s : Size) : Size := ⟨s.width, s.height⟩

/-- `goog.math.Size.equals(a, b)`: true when both are `null`, false when
exactly one is `null`, componentwise comparison otherwise.  (The reference
shortcut `a == b` of the source is subsumed: two non-null sizes that are the
same object certainly agree componentwise.) -/
def sizeEquals : Option Size → Option Size → Bool
  | none, none => true
  | some a, some b => a.width == b.width && a.height == b.height
  | _, _ => false

/-- Host-environment collaborator: user-agent flags, the per-window
`self != top` test, and `goog.dom.getViewportSize` keyed by window uid. -/
structure Env where
  webkit : Bool
  windowsOS : Bool
  opera : Bool
  selfNeTop : Nat → Bool
  measure : Nat → Size

/-- `rflect.dom.ViewportSizeMonitor.WINDOW_SIZE_POLL_RATE`. -/
def WINDOW_SIZE_POLL_RATE : Nat := 500

/-- Calls made into the host, recorded as a trace. -/
inductive Effect where
  | listen (windowUid : Nat)
  | unlistenByKey (key : Nat)
  | setInterval (rate : Nat)
  | clearInterval (handle : Nat)
deriving DecidableEq, Repr

/-- Events dispatched by the monitor (`goog.events.EventType.RESIZE`). -/
inductive Event where
  | resize
deriving DecidableEq, Repr

/-- The mutable fields of one `rflect.dom.ViewportSizeMonitor` instance,
together with the `disposed_` flag inherited from `goog.Disposable`. -/
structure Monitor where
  window : Option Nat
  listenerKey : Option Nat
  size : Option Size
  windowSizePollInterval : Option Nat
  disposed : Bool
deriving DecidableEq, Repr

/-- `isPollingRequired_`: `goog.userAgent.WEBKIT && goog.userAgent.WINDOWS ||
goog.userAgent.OPERA && this.window.self != this.window.top`. -/
def isPollingRequired (env : Env) (windowUid : Nat) : Bool :=
  env.webkit && env.windowsOS || env.opera && env.selfNeTop windowUid

/-- The constructor `rflect.dom.ViewportSizeMonitor(opt_window)`, applied to
the window with uid `windowUid`; `key` is the listener key the host returns
from `goog.events.listen` and `handle` the timer id `window.setInterval`
would return.  It subscribes to the resize event, stores the initial
measurement, and starts the poll timer when `isPollingRequired` holds.  The
returned traces record the host calls made and the events dispatched (the
constructor dispatches none). -/
def ViewportSizeMonitor.construct (env : Env) (windowUid key handle : Nat) :
    Monitor × List Event × List Effect :=
  ({ window := some windowUid
     listenerKey := some key
     size := some (env.measure windowUid)
     windowSizePollInterval :=
       if isPollingRequired env windowUid then some handle else none
     disposed := false },
   [],
   [Effect.listen windowUid] ++
     (if isPollingRequired env windowUid then
        [Effect.setInterval WINDOW_SIZE_POLL_RATE] else []))

/-- `getSize`: `return this.size ? this.size.clone() : null;`. -/
def Monitor.getSize (m : Monitor) : Option Size :=
  match m.size with
  | some s => some s.clone
  | none => none

/-- `checkForSizeChange`: measures the viewport of `this.window`, and when
the measurement is not `goog.math.Size.equals` to the stored size, stores it
and dispatches `RESIZE`.  Returns `none` when `this.window` is `null` (in
JavaScript, `goog.dom.getViewportSize(null)` would throw). -/
def Monitor.checkForSizeChange (env : Env) (m : Monitor) :
    Option (Monitor × List Event) :=
  match m.window with
  | none => none
  | some w =>
      let size := env.measure w
      if !(sizeEquals (some size) m.size) then
        some ({ m with size := some size }, [Event.resize])
      else
        some (m, [])

/-- `handleResize_`: the resize-event handler just calls
`checkForSizeChange`. -/
def Monitor.handleResize (env : Env) (m : Monitor) :
    Option (Monitor × List Event) :=
  m.checkForSizeChange env

/-- `disposeInternal`: unlistens when a listener key is held, clears the
interval when one is active, then nulls window and size.  The `disposed`
flag (set by `goog.Disposable.dispose` before `disposeInternal` runs) is
untouched here. -/
def Monitor.disposeInternal (m : Monitor) : Monitor × List Effect :=
  let effs1 : List Effect :=
    match m.listenerKey with
    | some k => [Effect.unlistenByKey k]
    | none => []
  let effs2 : List Effect :=
    match m.windowSizePollInterval with
    | some h => [Effect.clearInterval h]
    | none => []
  ({ m with window := none, listenerKey := none, size := none,
            windowSizePollInterval := none },
   effs1 ++ effs2)

/-- `goog.Disposable.prototype.dispose`: when not yet disposed, sets the
`disposed_` flag and runs `disposeInternal`; a second call is a no-op. -/
def Monitor.dispose (m : Monitor) : Monitor × List Effect :=
  if m.disposed then (m, [])
  else Monitor.disposeInternal { m with disposed := true }

/-- A finite sequence of `checkForSizeChange` invocations, one per entry of
`envs` (each entry is the host environment at that instant, so successive
measurements may differ).  Event traces are concatenated in order. -/
def Monitor.checkSeq (m : Monitor) : List Env → Option (Monitor × List Event)
  | [] => some (m, [])
  | env :: envs =>
      match m.checkForSizeChange env with
      | none => none
      | some (m', evs) =>
          match m'.checkSeq envs with
          | none => none
          | some (m'', evs') => some (m'', evs ++ evs')

/-- The process-wide state backing the static members of
`rflect.dom.ViewportSizeMonitor`: `windowInstanceMap_` maps a window uid to
the id of the monitor registered for it; `monitors` gives each monitor id
its current state; ids `≥ nextId` have never been handed out. -/
structure Registry where
  windowInstanceMap : Nat → Option Nat
  monitors : Nat → Monitor
  nextId : Nat

/-- `getInstanceForWindow`: returns the registered monitor's id for the
window when one exists, otherwise constructs a fresh monitor (with a fresh
id) and registers it. -/
def Registry.getInstanceForWindow (env : Env) (g : Registry) (windowUid : Nat) :
    Nat × Registry :=
  match g.windowInstanceMap windowUid with
  | some i => (i, g)
  | none =>
      let i := g.nextId
      let m := (ViewportSizeMonitor.construct env windowUid i i).1
      (i,
       { windowInstanceMap := fun u =>
           if u = windowUid then some i else g.windowInstanceMap u
         monitors := fun j => if j = i then m else g.monitors j
         nextId := g.nextId + 1 })

/-- `removeInstanceForWindow`: `goog.dispose` of the registered monitor (a
no-op when none is registered, as `goog.dispose(undefined)` is) followed by
`delete windowInstanceMap_[uid]`. -/
def Registry.removeInstanceForWindow (g : Registry) (windowUid : Nat) :
    Registry × List Effect :=
  match g.windowInstanceMap windowUid with
  | none => (g, [])
  | some i =>
      let (m', effs) := (g.monitors i).dispose
      ({ windowInstanceMap := fun u =>
           if u = windowUid then none else g.windowInstanceMap u
         monitors := fun j => if j = i then m' else g.monitors j
         nextId := g.nextId },
       effs)

/-- Well-formedness of the registry state: registered ids were handed out
(`< nextId`) and no monitor id is registered for two windows. -/
def Registry.WF (g : Registry) : Prop :=
  (∀ u i, g.windowInstanceMap u = some i → i < g.nextId) ∧
  (∀ u u' i, g.windowInstanceMap u = some i →
      g.windowInstanceMap u' = some i → u = u')

/-!
A heap-level model of `getSize`, faithful to the aliasing semantics of
`return this.size ? this.size.clone() : null;`: `goog.math.Size` objects
live in a heap (a list of `Size` values indexed by address), the monitor's
`size` field holds an address, and `clone` allocates a fresh object at the
end of the heap.  Only `getSize` needs this refinement; the value-level
`Monitor` above is used everywhere else.
-/

/-- A monitor's `size` field viewed through an object heap: `heap` holds the
live `goog.math.Size` objects; `sizeRef` is the address held by
`this.size` (`none` for `null`). -/
structure HeapMonitor where
  heap : List Size
  sizeRef : Option Nat
deriving DecidableEq, Repr

/-- `getSize` over the heap model: `null` is returned as-is; otherwise
`this.size.clone()` allocates a fresh object with the same dimensions at
the end of the heap and its address is returned. -/
def HeapMonitor.getSize (m : HeapMonitor) : Option Nat × HeapMonitor :=
  match m.sizeRef with
  | none => (none, m)
  | some a =>
      (some m.heap.length,
       { m with heap := m.heap ++ [Size.clone (m.heap.getD a ⟨0, 0⟩)] })

/-- A store through a heap reference (`returned.width = …` in JavaScript):
replaces the object at address `a`. -/
def HeapMonitor.writeAt (m : HeapMonitor) (a : Nat) (v : Size) : HeapMonitor :=
  { m with heap := m.heap.set a v }

/-- The object a heap reference currently denotes. -/
def HeapMonitor.readAt (m : HeapMonitor) (a : Nat) : Size :=
  m.heap.getD a ⟨0, 0⟩

theorem heapGetD_append_left (l1 l2 : List Size) (c : Nat)
    (hc : c < l1.length) (d : Size) :
    (l1 ++ l2).getD c d = l1.getD c d := by
  simp [List.getD, List.getElem?_append, hc]

theorem heapGetD_append_length (l : List Size) (x d : Size) :
    (l ++ [x]).getD l.length d = x := by
  simp [List.getD, List.getElem?_append]

theorem heapGetD_set_ne (l : List Size) (i j : Nat) (v d : Size)
    (h : i ≠ j) :
    (l.set i v).getD j d = l.getD j d := by
  simp [List.getD, List.getElem?_set, h]

/-- C6: `getSize` does not change the monitor's state (the `size` field and
every live object are untouched, and no measurement is involved), returns
the absent value exactly when no measurement was ever stored, and otherwise
returns a freshly allocated copy: a reference distinct from the stored one,
equal in value, and writing through the returned reference leaves the
stored object unchanged. -/
theorem getSize_independent_copy (m : HeapMonitor) (a : Nat)
    (ha : m.sizeRef = some a) (hlt : a < m.heap.length) :
    (m.getSize).2.sizeRef = m.sizeRef ∧
    (m.getSize).1 = some m.heap.length ∧
    m.heap.length ≠ a ∧
    (m.getSize).2.readAt m.heap.length = m.readAt a ∧
    (∀ v, ((m.getSize).2.writeAt m.heap.length v).readAt a = m.readAt a) ∧
    (∀ c, c < m.heap.length → (m.getSize).2.readAt c = m.readAt c) ∧
    (∀ m2 : HeapMonitor, (m2.getSize).1 = none ↔ m2.sizeRef = none) := by
  have hget : m.getSize = (some m.heap.length,
      { m with heap := m.heap ++ [Size.clone (m.heap.getD a ⟨0, 0⟩)] }) := by
    simp [HeapMonitor.getSize, ha]
  rw [hget]
  refine ⟨rfl, rfl, by omega, ?_, ?_, ?_, ?_⟩
  · show (m.heap ++ [Size.clone (m.heap.getD a ⟨0, 0⟩)]).getD
        m.heap.length ⟨0, 0⟩ = m.readAt a
    rw [heapGetD_append_length]
    rfl
  · intro v
    show ((m.heap ++ [Size.clone (m.heap.getD a ⟨0, 0⟩)]).set
        m.heap.length v).getD a ⟨0, 0⟩ = m.readAt a
    rw [heapGetD_set_ne _ _ _ _ _ (by omega),
        heapGetD_append_left _ _ _ hlt]
    rfl
  · intro c hc
    show (m.heap ++ [Size.clone (m.heap.getD a ⟨0, 0⟩)]).getD c ⟨0, 0⟩ =
        m.readAt c
    rw [heapGetD_append_left _ _ _ hc]
    rfl
  · intro m2
    cases h2 : m2.sizeRef with
    | none => simp [HeapMonitor.getSize, h2]
    | some b => simp [HeapMonitor.getSize, h2]

/-- A concrete one-object heap monitor, for the C6 witness. -/
def heapMonA : HeapMonitor := { heap := [⟨3, 4⟩], sizeRef := some 0 }

/-- Witness for C6: on a one-object heap the clone is fresh, equal in
value, and writing 9×9 through it leaves the stored 3×4 unchanged. -/
theorem getSize_independent_copy_witness :
    (heapMonA.getSize).2.sizeRef = heapMonA.sizeRef ∧
    (heapMonA.getSize).1 = some heapMonA.heap.length ∧
    heapMonA.heap.length ≠ 0 ∧
    (heapMonA.getSize).2.readAt heapMonA.heap.length = heapMonA.readAt 0 ∧
    ((heapMonA.getSize).2.writeAt heapMonA.heap.length ⟨9, 9⟩).readAt 0 =
      heapMonA.readAt 0 ∧
    ((heapMonA.getSize).1 = none ↔ heapMonA.sizeRef = none) := by
  have H := getSize_independent_copy heapMonA 0 rfl (by decide)
  exact ⟨H.1, H.2.1, H.2.2.1, H.2.2.2.1, H.2.2.2.2.1 ⟨9, 9⟩,
    H.2.2.2.2.2.2 heapMonA⟩

end Rflect

namespace RflectString

/-!
Embedding of the `rflect.string` helpers the claims mention.  JavaScript
strings are modelled as `List Char`; a JavaScript number that is either an
integer or `NaN` is modelled as `Option Nat` (`none` for `NaN`).
-/

/-- The longest all-digit prefix of a character list (what a greedy `\d*`
matches at a fixed position). -/
def takeDigits : List Char → List Char
  | [] => []
  | c :: cs => if c.isDigit then c :: takeDigits cs else []

/-- `RegExp.prototype.exec` for the pattern `\d{1,b}` (when
`bound = some b`, `b ≥ 1`) or `\d+` (when `bound = none`): the leftmost
match, i.e. at the first digit position, greedily up to `b` digits (or the
whole digit run).  `none` when the string holds no digit. -/
def execDigits (bound : Option Nat) : List Char → Option (List Char)
  | [] => none
  | c :: cs =>
      if c.isDigit then
        some (match bound with
              | none => c :: takeDigits cs
              | some b => (c :: takeDigits cs).take b)
      else execDigits bound cs

/-- JavaScript unary `+` applied to an all-digit string: its decimal
value. -/
def digitsToNat (ds : List Char) : Nat :=
  ds.foldl (fun n c => n * 10 + (c.toNat - '0'.toNat)) 0

/-- `rflect.string.getNumericIndex(aId, opt_base)`: builds `\d{1,opt_base}`
(or `\d+` when `opt_base` is undefined), runs `exec` against `aId`, and
returns the match as a number, `NaN` (here `none`) when there is none. -/
def getNumericIndex (aId : List Char) (optBase : Option Nat) : Option Nat :=
  (execDigits optBase aId).map digitsToNat

/-- `rflect.string.get2DigitIndex(aId)`:
`rflect.string.getNumericIndex(aId, 2)`. -/
def get2DigitIndex (aId : List Char) : Option Nat :=
  getNumericIndex aId (some 2)

/-- JavaScript `String.prototype.substring(start)` with one non-negative
argument: the characters from index `start` (clamped to the length) to the
end. -/
def substring (s : List Char) (start : Nat) : List Char :=
  s.drop start

/-- `rflect.string.getIdWithoutPrefix(aStr, aPrefix)`:
`aStr.substring(aPrefix.length)`. -/
def getIdWithoutPrefix (aStr aPrefix : List Char) : List Char :=
  substring aStr aPrefix.length

/-- The reading of claim C9's words, for comparison with the code: "extracts
a numeric suffix of the given digit-width from the string" — the trailing
run of digits of `aId` (its last `b` digits when a width `b` is given), as
a number; `none` when `aId` does not end in a digit. -/
def numericSuffixSpec (aId : List Char) (optBase : Option Nat) : Option Nat :=
  match (takeDigits aId.reverse).reverse with
  | [] => none
  | ds =>
      some (digitsToNat (match optBase with
                         | none => ds
                         | some b => ds.drop (ds.length - b)))

end RflectString

namespace Rflect

/-! Helper lemmas shared by the theorems below. -/

theorem Size.clone_eq (s : Size) : s.clone = s := rfl

theorem sizeEquals_some_iff (s : Size) (t : Option Size) :
    sizeEquals (some s) t = true ↔ t = some s := by
  cases t with
  | none => simp [sizeEquals]
  | some u =>
      cases s with
      | mk sw sh =>
          cases u with
          | mk uw uh =>
              simp [sizeEquals, Size.mk.injEq]
              constructor
              · rintro ⟨h1, h2⟩; exact ⟨h1.symm, h2.symm⟩
              · rintro ⟨h1, h2⟩; exact ⟨h1.symm, h2.symm⟩

theorem checkForSizeChange_of_ne (env : Env) (m : Monitor) (w : Nat)
    (hw : m.window = some w) (hne : m.size ≠ some (env.measure w)) :
    m.checkForSizeChange env =
      some ({ m with size := some (env.measure w) }, [Event.resize]) := by
  have hfalse : sizeEquals (some (env.measure w)) m.size = false := by
    cases h : sizeEquals (some (env.measure w)) m.size with
    | false => rfl
    | true => exact absurd ((sizeEquals_some_iff _ _).1 h) hne
  simp [Monitor.checkForSizeChange, hw, hfalse]

theorem checkForSizeChange_of_eq (env : Env) (m : Monitor) (w : Nat)
    (hw : m.window = some w) (heq : m.size = some (env.measure w)) :
    m.checkForSizeChange env = some (m, []) := by
  have htrue : sizeEquals (some (env.measure w)) m.size = true :=
    (sizeEquals_some_iff _ _).2 heq
  simp [Monitor.checkForSizeChange, hw, htrue]

theorem checkSeq_const (m : Monitor) (w : Nat) (s : Size)
    (hw : m.window = some w) (hs : m.size = some s) :
    ∀ envs : List Env, (∀ e ∈ envs, e.measure w = s) →
      m.checkSeq envs = some (m, []) := by
  intro envs
  induction envs with
  | nil => intro _; rfl
  | cons e es ih =>
      intro hall
      have hm : e.measure w = s := hall e (List.mem_cons_self e es)
      have hcheck : m.checkForSizeChange e = some (m, []) :=
        checkForSizeChange_of_eq e m w hw (by rw [hs, hm])
      have hrest : m.checkSeq es = some (m, []) :=
        ih fun e2 he2 => hall e2 (List.mem_cons_of_mem e he2)
      simp [Monitor.checkSeq, hcheck, hrest]

/-- A fixed quiet environment (no polling needed, constant viewport) and the
monitor built on window 0 in it, used as concrete witnesses. -/
def envA : Env :=
  { webkit := false, windowsOS := false, opera := false
    selfNeTop := fun _ => false, measure := fun _ => ⟨1024, 768⟩ }

/-- A second environment in which window 0 measures differently. -/
def envB : Env :=
  { webkit := false, windowsOS := false, opera := false
    selfNeTop := fun _ => false, measure := fun _ => ⟨800, 600⟩ }

/-- The monitor constructed on window 0 in `envA`. -/
def monA : Monitor := (ViewportSizeMonitor.construct envA 0 1 2).1

/-- C1: for an active monitor, a `checkForSizeChange` whose measurement
differs from `lastSize` stores the new measurement and dispatches exactly
one `RESIZE` event (which carries no payload), after which `getSize` returns
the new measurement. -/
theorem checkForSizeChange_differing_measurement (env : Env) (m : Monitor)
    (w : Nat) (hactive : m.disposed = false) (hw : m.window = some w)
    (hne : m.size ≠ some (env.measure w)) :
    m.checkForSizeChange env =
      some ({ m with size := some (env.measure w) }, [Event.resize]) ∧
    Monitor.getSize { m with size := some (env.measure w) } =
      some (env.measure w) := by
  refine ⟨checkForSizeChange_of_ne env m w hw hne, ?_⟩
  simp [Monitor.getSize, Size.clone_eq]

/-- Witness for C1: on the concrete monitor `monA` (holding 1024×768), a
check in `envB` (measuring 800×600) stores the new size and fires one
event. -/
theorem checkForSizeChange_differing_measurement_witness :
    monA.checkForSizeChange envB =
      some ({ monA with size := some (envB.measure 0) }, [Event.resize]) ∧
    Monitor.getSize { monA with size := some (envB.measure 0) } =
      some (envB.measure 0) :=
  checkForSizeChange_differing_measurement envB monA 0 rfl rfl (by decide)

/-- C2: over any sequence of checks in which every measurement equals the
stored `lastSize`, no event is dispatched and the monitor's state (its
`lastSize` included) is unchanged. -/
theorem checkForSizeChange_no_change_noop (m : Monitor) (w : Nat) (s : Size)
    (envs : List Env) (hw : m.window = some w) (hs : m.size = some s)
    (hall : ∀ e ∈ envs, e.measure w = s) :
    m.checkSeq envs = some (m, []) :=
  checkSeq_const m w s hw hs envs hall

/-- Witness for C2: three no-change checks on `monA` dispatch nothing and
leave the state untouched. -/
theorem checkForSizeChange_no_change_noop_witness :
    monA.checkSeq [envA, envA, envA] = some (monA, []) :=
  checkForSizeChange_no_change_noop monA 0 ⟨1024, 768⟩ [envA, envA, envA]
    rfl rfl
    (by intro e he
        simp only [List.mem_cons, List.not_mem_nil, or_false] at he
        rcases he with rfl | rfl | rfl <;> rfl)

/-- C7: the constructor stores the current measurement as `lastSize`,
dispatches no event, subscribes to the native resize notification, and
leaves the monitor active; `getSize` immediately returns the
measurement. -/
theorem construct_initial_state (env : Env) (w k h : Nat) :
    (ViewportSizeMonitor.construct env w k h).1.size =
        some (env.measure w) ∧
    (ViewportSizeMonitor.construct env w k h).2.1 = [] ∧
    (ViewportSizeMonitor.construct env w k h).1.listenerKey = some k ∧
    Effect.listen w ∈ (ViewportSizeMonitor.construct env w k h).2.2 ∧
    (ViewportSizeMonitor.construct env w k h).1.getSize =
        some (env.measure w) ∧
    (ViewportSizeMonitor.construct env w k h).1.window = some w ∧
    (ViewportSizeMonitor.construct env w k h).1.disposed = false := by
  refine ⟨rfl, rfl, rfl, ?_, ?_, rfl, rfl⟩
  · simp [ViewportSizeMonitor.construct]
  · simp [ViewportSizeMonitor.construct, Monitor.getSize, Size.clone_eq]

/-- C8: the constructor starts the 500-unit poll timer exactly when
`isPollingRequired` holds (legacy engine on the desktop OS, or the browser
in a nested frame), and any number of poll ticks under an unchanged host
size dispatches no event and leaves the state untouched. -/
theorem construct_polling (env : Env) (w k h n : Nat) :
    ((ViewportSizeMonitor.construct env w k h).1.windowSizePollInterval ≠
        none ↔ isPollingRequired env w = true) ∧
    (Effect.setInterval WINDOW_SIZE_POLL_RATE ∈
        (ViewportSizeMonitor.construct env w k h).2.2 ↔
      isPollingRequired env w = true) ∧
    isPollingRequired env w =
        (env.webkit && env.windowsOS || env.opera && env.selfNeTop w) ∧
    WINDOW_SIZE_POLL_RATE = 500 ∧
    (ViewportSizeMonitor.construct env w k h).1.checkSeq
        (List.replicate n env) =
      some ((ViewportSizeMonitor.construct env w k h).1, []) := by
  refine ⟨?_, ?_, rfl, rfl, ?_⟩
  · cases hp : isPollingRequired env w <;>
      simp [ViewportSizeMonitor.construct, hp]
  · cases hp : isPollingRequired env w <;>
      simp [ViewportSizeMonitor.construct, hp, Effect.setInterval.injEq]
  · exact checkSeq_const _ w (env.measure w) rfl rfl _
      (fun e he => by rw [List.eq_of_mem_replicate he])

/-- C4: disposing a live monitor leaves every resource field absent; a
second `dispose` is a pure no-op (no state change, no host call), and even
a direct second `disposeInternal` attempts no unsubscribe and no timer
cancellation. -/
theorem dispose_idempotent (m : Monitor) (hm : m.disposed = false) :
    (m.dispose).1.dispose = ((m.dispose).1, []) ∧
    (m.dispose).1.listenerKey = none ∧
    (m.dispose).1.windowSizePollInterval = none ∧
    (m.dispose).1.window = none ∧
    (m.dispose).1.size = none ∧
    ((m.dispose).1.disposeInternal).2 = [] := by
  have h1 : (m.dispose).1 =
      { window := none, listenerKey := none, size := none
        windowSizePollInterval := none, disposed := true } := by
    simp [Monitor.dispose, hm, Monitor.disposeInternal]
  rw [h1]
  refine ⟨?_, rfl, rfl, rfl, rfl, rfl⟩
  simp [Monitor.dispose]

theorem getInstanceForWindow_stable (env : Env) (g : Registry) (w i : Nat)
    (h : g.windowInstanceMap w = some i) :
    g.getInstanceForWindow env w = (i, g) := by
  simp [Registry.getInstanceForWindow, h]

theorem getInstanceForWindow_lookup (env : Env) (g : Registry) (w : Nat) :
    ((g.getInstanceForWindow env w).2).windowInstanceMap w =
      some ((g.getInstanceForWindow env w).1) := by
  cases h : g.windowInstanceMap w with
  | some i => simp [Registry.getInstanceForWindow, h]
  | none => simp [Registry.getInstanceForWindow, h]

theorem getInstanceForWindow_WF (env : Env) (g : Registry) (w : Nat)
    (hwf : g.WF) : ((g.getInstanceForWindow env w).2).WF := by
  obtain ⟨hfresh, hinj⟩ := hwf
  cases hw : g.windowInstanceMap w with
  | some j =>
      rw [getInstanceForWindow_stable env g w j hw]
      exact ⟨hfresh, hinj⟩
  | none =>
      have hg1 : (g.getInstanceForWindow env w).2 =
          { windowInstanceMap := fun u =>
              if u = w then some g.nextId else g.windowInstanceMap u
            monitors := fun j => if j = g.nextId then
              (ViewportSizeMonitor.construct env w g.nextId g.nextId).1
              else g.monitors j
            nextId := g.nextId + 1 } := by
        simp [Registry.getInstanceForWindow, hw]
      rw [hg1]
      constructor
      · intro u i hu
        by_cases huw : u = w
        · subst huw
          simp at hu ⊢
          omega
        · simp only [if_neg huw] at hu
          exact Nat.lt_succ_of_lt (hfresh u i hu)
      · intro u u' i hu hu'
        by_cases huw : u = w <;> by_cases hu'w : u' = w
        · rw [huw, hu'w]
        · subst huw
          simp only [if_neg hu'w] at hu'
          simp at hu
          have := hfresh u' i hu'
          omega
        · subst hu'w
          simp only [if_neg huw] at hu
          simp at hu'
          have := hfresh u i hu
          omega
        · simp only [if_neg huw] at hu
          simp only [if_neg hu'w] at hu'
          exact hinj u u' i hu hu'

theorem getInstanceForWindow_fresh_ne (env : Env) (g1 : Registry)
    (w w' i1 : Nat) (hwf : g1.WF)
    (hreg : g1.windowInstanceMap w = some i1) (hne : w ≠ w') :
    (g1.getInstanceForWindow env w').1 ≠ i1 := by
  cases h : g1.windowInstanceMap w' with
  | some j =>
      rw [getInstanceForWindow_stable env g1 w' j h]
      intro hji
      simp only at hji
      exact hne (hwf.2 w w' i1 hreg (by rw [h, hji]))
  | none =>
      have hres : (g1.getInstanceForWindow env w').1 = g1.nextId := by
        simp [Registry.getInstanceForWindow, h]
      rw [hres]
      have hlt := hwf.1 w i1 hreg
      omega

/-- C3: `getInstanceForWindow` is idempotent per window identity (a second
call with the same window returns the same monitor id and changes nothing),
two distinct windows get distinct monitor ids, and well-formedness — in
particular that no monitor is shared between two windows — is
preserved. -/
theorem getInstanceForWindow_idempotent (env : Env) (g : Registry)
    (w w' : Nat) (hwf : g.WF) (hne : w ≠ w') :
    ((g.getInstanceForWindow env w).2).getInstanceForWindow env w =
        ((g.getInstanceForWindow env w).1, (g.getInstanceForWindow env w).2) ∧
    (((g.getInstanceForWindow env w).2).getInstanceForWindow env w').1 ≠
        (g.getInstanceForWindow env w).1 ∧
    ((g.getInstanceForWindow env w).2).WF := by
  refine ⟨?_, ?_, getInstanceForWindow_WF env g w hwf⟩
  · exact getInstanceForWindow_stable env _ w _
      (getInstanceForWindow_lookup env g w)
  · exact getInstanceForWindow_fresh_ne env _ w w' _
      (getInstanceForWindow_WF env g w hwf)
      (getInstanceForWindow_lookup env g w) hne

/-- The empty registry and the registry holding one monitor for window 0,
used as concrete witnesses. -/
def regEmpty : Registry :=
  { windowInstanceMap := fun _ => none, monitors := fun _ => monA
    nextId := 0 }

/-- The registry after registering a monitor for window 0 in `regEmpty`. -/
def regA : Registry := (regEmpty.getInstanceForWindow envA 0).2

theorem regEmpty_WF : regEmpty.WF :=
  ⟨fun u i h => by simp [regEmpty] at h,
   fun u u' i h _ => by simp [regEmpty] at h⟩

theorem regA_WF : regA.WF := getInstanceForWindow_WF envA regEmpty 0 regEmpty_WF

/-- Witness for C3: registering window 0 in the empty registry, a second
call for window 0 returns the same id and state, and a call for window 1
returns a different id. -/
theorem getInstanceForWindow_idempotent_witness :
    ((regEmpty.getInstanceForWindow envA 0).2).getInstanceForWindow envA 0 =
        ((regEmpty.getInstanceForWindow envA 0).1,
         (regEmpty.getInstanceForWindow envA 0).2) ∧
    (((regEmpty.getInstanceForWindow envA 0).2).getInstanceForWindow
        envA 1).1 ≠ (regEmpty.getInstanceForWindow envA 0).1 ∧
    ((regEmpty.getInstanceForWindow envA 0).2).WF :=
  getInstanceForWindow_idempotent envA regEmpty 0 1 regEmpty_WF
    (by decide)

theorem dispose_disposed (m : Monitor) : ((m.dispose).1).disposed = true := by
  by_cases h : m.disposed = true
  · simp [Monitor.dispose, h]
  · simp only [Bool.not_eq_true] at h
    simp [Monitor.dispose, h, Monitor.disposeInternal]

/-- C5: `removeInstanceForWindow` is a no-op when no monitor is registered;
otherwise it disposes the registered monitor and clears the registry entry,
and a subsequent `getInstanceForWindow` returns a newly constructed,
undisposed monitor with a different id from the disposed one. -/
theorem removeInstanceForWindow_spec (env : Env) (g : Registry) (w : Nat)
    (hwf : g.WF) :
    (g.windowInstanceMap w = none → g.removeInstanceForWindow w = (g, [])) ∧
    (∀ i, g.windowInstanceMap w = some i →
      (g.removeInstanceForWindow w).1.windowInstanceMap w = none ∧
      (g.removeInstanceForWindow w).1.monitors i =
          ((g.monitors i).dispose).1 ∧
      ((g.removeInstanceForWindow w).1.monitors i).disposed = true ∧
      ((g.removeInstanceForWindow w).1.getInstanceForWindow env w).1 ≠ i ∧
      ((g.removeInstanceForWindow w).1.getInstanceForWindow env w).2.monitors
          ((g.removeInstanceForWindow w).1.getInstanceForWindow env w).1 =
        (ViewportSizeMonitor.construct env w g.nextId g.nextId).1 ∧
      (ViewportSizeMonitor.construct env w g.nextId g.nextId).1.disposed =
        false) := by
  constructor
  · intro h
    simp [Registry.removeInstanceForWindow, h]
  · intro i h
    have hg' : (g.removeInstanceForWindow w).1 =
        { windowInstanceMap := fun u =>
            if u = w then none else g.windowInstanceMap u
          monitors := fun j => if j = i then ((g.monitors i).dispose).1
            else g.monitors j
          nextId := g.nextId } := by
      simp [Registry.removeInstanceForWindow, h]
    have hmapnone : (g.removeInstanceForWindow w).1.windowInstanceMap w =
        none := by
      rw [hg']; simp
    have hmon : (g.removeInstanceForWindow w).1.monitors i =
        ((g.monitors i).dispose).1 := by
      rw [hg']; simp
    have hget : ((g.removeInstanceForWindow w).1.getInstanceForWindow
        env w).1 = g.nextId := by
      simp [Registry.getInstanceForWindow, hmapnone, hg']
    refine ⟨hmapnone, hmon, ?_, ?_, ?_, rfl⟩
    · rw [hmon]; exact dispose_disposed _
    · rw [hget]
      have := hwf.1 w i h
      omega
    · have hmon' : ((g.removeInstanceForWindow w).1.getInstanceForWindow
          env w).2.monitors
            ((g.removeInstanceForWindow w).1.getInstanceForWindow env w).1 =
          (ViewportSizeMonitor.construct env w ((g.removeInstanceForWindow
            w).1.nextId) ((g.removeInstanceForWindow w).1.nextId)).1 := by
        simp [Registry.getInstanceForWindow, hmapnone]
      rw [hmon']
      rw [hg']

/-- Witness for C5: removing window 0's monitor from `regA` clears the
entry, disposes the monitor, and a later request returns a fresh
monitor. -/
theorem removeInstanceForWindow_spec_witness :
    (regA.removeInstanceForWindow 0).1.windowInstanceMap 0 = none ∧
    (regA.removeInstanceForWindow 0).1.monitors 0 =
        ((regA.monitors 0).dispose).1 ∧
    ((regA.removeInstanceForWindow 0).1.monitors 0).disposed = true ∧
    ((regA.removeInstanceForWindow 0).1.getInstanceForWindow envA 0).1 ≠ 0 ∧
    ((regA.removeInstanceForWindow 0).1.getInstanceForWindow envA
        0).2.monitors
        ((regA.removeInstanceForWindow 0).1.getInstanceForWindow envA 0).1 =
      (ViewportSizeMonitor.construct envA 0 regA.nextId regA.nextId).1 ∧
    (ViewportSizeMonitor.construct envA 0 regA.nextId
        regA.nextId).1.disposed = false :=
  (removeInstanceForWindow_spec envA regA 0 regA_WF).2 0 rfl

/-- Witness for C4: double disposal of the concrete monitor `monA`. -/
theorem dispose_idempotent_witness :
    (monA.dispose).1.dispose = ((monA.dispose).1, []) ∧
    (monA.dispose).1.listenerKey = none ∧
    (monA.dispose).1.windowSizePollInterval = none ∧
    (monA.dispose).1.window = none ∧
    (monA.dispose).1.size = none ∧
    ((monA.dispose).1.disposeInternal).2 = [] :=
  dispose_idempotent monA rfl

end Rflect

namespace RflectString

theorem execDigits_append (bound : Option Nat) (pre : List Char) (d : Char)
    (post : List Char) (hpre : ∀ c ∈ pre, c.isDigit = false)
    (hd : d.isDigit = true) :
    execDigits bound (pre ++ d :: post) =
      some (match bound with
            | none => d :: takeDigits post
            | some b => (d :: takeDigits post).take b) := by
  induction pre with
  | nil => simp [execDigits, hd]
  | cons c cs ih =>
      have hc : c.isDigit = false := hpre c (List.mem_cons_self c cs)
      simp only [List.cons_append, execDigits, hc, Bool.false_eq_true,
        if_false]
      exact ih fun c2 h2 => hpre c2 (List.mem_cons_of_mem c h2)

theorem execDigits_of_no_digit (bound : Option Nat) (s : List Char)
    (hall : ∀ c ∈ s, c.isDigit = false) : execDigits bound s = none := by
  induction s with
  | nil => rfl
  | cons c cs ih =>
      have hc : c.isDigit = false := hall c (List.mem_cons_self c cs)
      simp only [execDigits, hc, Bool.false_eq_true, if_false]
      exact ih fun c2 h2 => hall c2 (List.mem_cons_of_mem c h2)

/-- Counterexample to C9: the code returns the first run of digits, not a
numeric suffix.  On `id3456`, `get2DigitIndex` returns 34 while the two-digit
numeric suffix is 56 (the last two characters are 5 and 6); on `a1b2` with
no width, `getNumericIndex` returns 1 while the trailing digit run is 2. -/
theorem getNumericIndex_counterexample :
    get2DigitIndex ['i', 'd', '3', '4', '5', '6'] = some 34 ∧
    numericSuffixSpec ['i', 'd', '3', '4', '5', '6'] (some 2) = some 56 ∧
    ['i', 'd', '3', '4', '5', '6'].drop 4 = ['5', '6'] ∧
    getNumericIndex ['a', '1', 'b', '2'] none = some 1 ∧
    numericSuffixSpec ['a', '1', 'b', '2'] none = some 2 ∧
    (34 : Nat) ≠ 56 ∧ (1 : Nat) ≠ 2 := by
  decide

/-- C9 amended: `getNumericIndex` extracts the first (leftmost) run of
digits in the identifier — truncated to at most `opt_base` digits when a
width is given — as a number, and NaN (`none`) when the identifier holds no
digit; `get2DigitIndex` is the width-2 variant.  The extracted digits form
a suffix only when the identifier happens to end with its first digit
run. -/
theorem getNumericIndex_leftmost_run (pre : List Char) (d : Char)
    (post : List Char) (b : Nat) (s : List Char) (hb : 1 ≤ b)
    (hpre : ∀ c ∈ pre, c.isDigit = false) (hd : d.isDigit = true)
    (hs : ∀ c ∈ s, c.isDigit = false) :
    getNumericIndex (pre ++ d :: post) (some b) =
        some (digitsToNat ((d :: takeDigits post).take b)) ∧
    getNumericIndex (pre ++ d :: post) none =
        some (digitsToNat (d :: takeDigits post)) ∧
    getNumericIndex s (some b) = none ∧
    getNumericIndex s none = none ∧
    get2DigitIndex (pre ++ d :: post) =
        getNumericIndex (pre ++ d :: post) (some 2) := by
  refine ⟨?_, ?_, ?_, ?_, rfl⟩
  · rw [getNumericIndex, execDigits_append (some b) pre d post hpre hd]
    rfl
  · rw [getNumericIndex, execDigits_append none pre d post hpre hd]
    rfl
  · rw [getNumericIndex, execDigits_of_no_digit (some b) s hs]
    rfl
  · rw [getNumericIndex, execDigits_of_no_digit none s hs]
    rfl

/-- Witness for the amended C9: on `a1b2` the leftmost digit run starts at
the 1, and with width 2 the extracted number is 1 (the run is a single
digit); on the all-letter `ab` the result is NaN. -/
theorem getNumericIndex_leftmost_run_witness :
    getNumericIndex (['a'] ++ '1' :: ['b', '2']) (some 2) =
        some (digitsToNat (('1' :: takeDigits ['b', '2']).take 2)) ∧
    getNumericIndex (['a'] ++ '1' :: ['b', '2']) none =
        some (digitsToNat ('1' :: takeDigits ['b', '2'])) ∧
    getNumericIndex ['a', 'b'] (some 2) = none ∧
    getNumericIndex ['a', 'b'] none = none ∧
    get2DigitIndex (['a'] ++ '1' :: ['b', '2']) =
        getNumericIndex (['a'] ++ '1' :: ['b', '2']) (some 2) :=
  getNumericIndex_leftmost_run ['a'] '1' ['b', '2'] 2 ['a', 'b']
    (by decide) (by decide) (by decide) (by decide)

/-- C10: `getIdWithoutPrefix` drops the first `length aPrefix` characters of
`aStr` unconditionally: it recovers the tail when the string does begin
with the prefix, its result depends only on the prefix's length (never on
whether the string actually begins with it), and a string no longer than
the prefix becomes empty. -/
theorem getIdWithoutPrefix_spec (s p q t : List Char)
    (hlen : p.length = q.length) :
    getIdWithoutPrefix s p = s.drop p.length ∧
    getIdWithoutPrefix (p ++ t) p = t ∧
    getIdWithoutPrefix s p = getIdWithoutPrefix s q ∧
    (s.length ≤ p.length → getIdWithoutPrefix s p = []) := by
  refine ⟨rfl, ?_, ?_, ?_⟩
  · simp [getIdWithoutPrefix, substring]
  · simp [getIdWithoutPrefix, substring, hlen]
  · intro hle
    simp [getIdWithoutPrefix, substring, List.drop_eq_nil_iff, hle]

/-- Witness for C10: with the string `xy12` and the non-matching prefix
`ab` (same length as `xy`), the two leading characters are dropped
regardless, and against the longer prefix `abcdef` the result is empty. -/
theorem getIdWithoutPrefix_spec_witness :
    getIdWithoutPrefix ['x', 'y', '1', '2'] ['a', 'b'] =
        ['x', 'y', '1', '2'].drop ['a', 'b'].length ∧
    getIdWithoutPrefix (['a', 'b'] ++ ['1', '2']) ['a', 'b'] = ['1', '2'] ∧
    getIdWithoutPrefix ['x', 'y', '1', '2'] ['a', 'b'] =
        getIdWithoutPrefix ['x', 'y', '1', '2'] ['x', 'y'] ∧
    (['x', 'y', '1', '2'].length ≤ ['a', 'b'].length →
      getIdWithoutPrefix ['x', 'y', '1', '2'] ['a', 'b'] = []) :=
  getIdWithoutPrefix_spec ['x', 'y', '1', '2'] ['a', 'b'] ['x', 'y']
    ['1', '2'] rfl

end RflectString
